import Mathlib

/-!
Verification of the annotation-to-PDF core of the `calc` repository
(`src/growth-calculator/brain.js`, PDF editor portion): the coordinate
transform (`drawTextObject`, `drawImageObject`, `hexToRgb`), the per-page
undo/redo engine (`saveUndoState`, `undo`, `redo`), the in-memory
annotation store with best-effort persistence
(`saveCurrentPageAnnotations`), and the flattening pipeline (`savePDF`).

Conventions of the embedding:
- JavaScript numbers are modelled by exact rationals; the properties under
  test are stated exactly, matching the intent "exactly, up to
  floating-point tolerance".
- Optional JS object attributes are `Option` fields. The JS expression
  `v || d` on a numeric attribute (falsy for `undefined` and `0`) is
  `numOr`, and on a string attribute (falsy for `undefined` and `""`) is
  `strOr`.
- Serialized canvas snapshots (`JSON.stringify(canvas.toJSON())`) are
  modelled as opaque `String` values; `loadFromJSON` is modelled as an
  atomic restoration of the canvas to the given snapshot.
- External-library effects are modelled by explicit data: the intrinsic
  dimensions reported by an embedded image and whether fetching/embedding
  the image source throws are carried on the object
  (`imgNaturalWidth`, `imgNaturalHeight`, `imgCorrupt`), and the
  quota-bounded `localStorage.setItem` is a `Bool`-indexed `Except`.
-/

namespace PdfEditor

/-- JS `v || d` for an optional numeric attribute: `undefined` (absent)
and `0` are falsy and select the default `d`. -/
def numOr : Option ℚ → ℚ → ℚ
  | none, d => d
  | some x, d => if x = 0 then d else x

/-- JS `v || d` for an optional string attribute: `undefined` (absent)
and the empty string are falsy and select the default `d`. -/
def strOr : Option String → String → String
  | none, d => d
  | some s, d => if s = "" then d else s

/-- Value of a single hexadecimal digit character, `none` for non-digits. -/
def hexDigitVal (c : Char) : Option ℕ :=
  if '0' ≤ c ∧ c ≤ '9' then some (c.toNat - '0'.toNat)
  else if 'a' ≤ c ∧ c ≤ 'f' then some (c.toNat - 'a'.toNat + 10)
  else if 'A' ≤ c ∧ c ≤ 'F' then some (c.toNat - 'A'.toNat + 10)
  else none

/-- Accumulate the value of the longest leading run of hex digits. -/
def hexLeadVal : List Char → ℕ → ℕ
  | [], a => a
  | c :: cs, a =>
    match hexDigitVal c with
    | some d => hexLeadVal cs (a * 16 + d)
    | none => a

/-- JS `parseInt(s, 16)` as used by `hexToRgb` on two-character slices of a
color string: the value of the longest valid hex-digit prefix, `none`
(JS `NaN`) when the string does not start with a hex digit. -/
def parseIntBase16 : List Char → Option ℕ
  | [] => none
  | c :: cs =>
    match hexDigitVal c with
    | some _ => some (hexLeadVal (c :: cs) 0)
    | none => none

/-- JS `hex.replace(&#35;, "")` with a string pattern: remove the first
occurrence of the hash character only. -/
def removeFirstHash : List Char → List Char
  | [] => []
  | c :: cs => if c = '#' then cs else c :: removeFirstHash cs

/-- Result of `hexToRgb`: each channel is `none` when the corresponding
`parseInt` produced `NaN`. -/
structure RgbParse where
  r : Option ℚ
  g : Option ℚ
  b : Option ℚ
deriving DecidableEq

/-- `hexToRgb` from brain.js: strip a leading hash, parse three
two-character slices base 16, divide each by 255. -/
def hexToRgb (hex : String) : RgbParse :=
  let cs := removeFirstHash hex.toList
  { r := (parseIntBase16 (cs.take 2)).map (fun n => (n : ℚ) / 255)
    g := (parseIntBase16 ((cs.drop 2).take 2)).map (fun n => (n : ℚ) / 255)
    b := (parseIntBase16 ((cs.drop 4).take 2)).map (fun n => (n : ℚ) / 255) }

/-- A validated color as passed to the drawing primitive. -/
structure Rgb01 where
  r : ℚ
  g : ℚ
  b : ℚ
deriving DecidableEq

/-- An annotation object as it appears in a stored page snapshot
(the fabric.js serialized form), together with the external-environment
data its drawing depends on: the intrinsic dimensions the embedded image
reports and whether fetching/embedding its source throws. -/
structure AnnObj where
  type : String
  text : Option String := none
  fontSize : Option ℚ := none
  fill : Option String := none
  left : Option ℚ := none
  top : Option ℚ := none
  width : Option ℚ := none
  height : Option ℚ := none
  scaleX : Option ℚ := none
  scaleY : Option ℚ := none
  src : Option String := none
  imgNaturalWidth : ℚ := 0
  imgNaturalHeight : ℚ := 0
  imgCorrupt : Bool := false
deriving DecidableEq

/-- A drawing primitive invocation on the output page:
`page.drawText` or `page.drawImage` with its absolute arguments. -/
inductive DrawOp where
  | text (x y size : ℚ) (content : String) (color : Rgb01)
  | image (x y w h : ℚ)
deriving DecidableEq

/-- `drawTextObject(page, textObj, viewport, font, pageHeight)` from
brain.js. Returns `.ok none` for the early return on falsy text,
`.ok (some op)` for a successful draw, and `.error ()` when the drawing
primitive throws — which happens when a color channel parsed to `NaN`
(the pdf-lib `rgb` constructor rejects it); such an exception is caught
by the per-object handler in `savePDF`. -/
def drawTextObject (viewportHeight pageHeight : ℚ) (textObj : AnnObj) :
    Except Unit (Option DrawOp) :=
  match textObj.text with
  | none => .ok none
  | some text =>
    if text = "" then .ok none
    else
      let fontSize := numOr textObj.fontSize 18
      let color := hexToRgb (strOr textObj.fill "#000000")
      let fabricLeft := numOr textObj.left 0
      let fabricTop := numOr textObj.top 0
      let textHeight := numOr textObj.height fontSize
      let scale := pageHeight / viewportHeight
      let pdfX := fabricLeft * scale
      let pdfY := pageHeight - (fabricTop + textHeight) * scale
      match color.r, color.g, color.b with
      | some r, some g, some b =>
        .ok (some (.text pdfX pdfY (fontSize * scale) text ⟨r, g, b⟩))
      | _, _, _ => .error ()

/-- `drawImageObject(pdfDoc, page, imageObj, viewport, pageHeight)` from
brain.js. The function catches its own errors, so it never throws to the
caller; the second component records whether its catch block logged an
error (fetch or embed threw, modelled by `imgCorrupt`). Falsy `src`
returns early without drawing and without logging. -/
def drawImageObject (viewportHeight pageHeight : ℚ) (imageObj : AnnObj) :
    Option DrawOp × Bool :=
  match imageObj.src with
  | none => (none, false)
  | some src =>
    if src = "" then (none, false)
    else if imageObj.imgCorrupt then (none, true)
    else
      let imgWidth := numOr imageObj.width imageObj.imgNaturalWidth *
        numOr imageObj.scaleX 1
      let imgHeight := numOr imageObj.height imageObj.imgNaturalHeight *
        numOr imageObj.scaleY 1
      let fabricLeft := numOr imageObj.left 0
      let fabricTop := numOr imageObj.top 0
      let scale := pageHeight / viewportHeight
      let pdfX := fabricLeft * scale
      let pdfY := pageHeight - (fabricTop + imgHeight) * scale
      (some (.image pdfX pdfY (imgWidth * scale) (imgHeight * scale)), false)

/-- Outcome of the per-object body of the `savePDF` loop:
an op was drawn, the object was skipped with no error logged, or a
failure was caught (by the `savePDF` per-object catch for text, by the
internal catch of `drawImageObject` for images) and logged. -/
inductive ObjOutcome where
  | drawn (op : DrawOp)
  | skipped
  | errorLogged
deriving DecidableEq

/-- The drawn op of an outcome, if any. -/
def ObjOutcome.op? : ObjOutcome → Option DrawOp
  | .drawn op => some op
  | .skipped => none
  | .errorLogged => none

/-- The per-object dispatch inside the `savePDF` loop: only the types
`textbox`, `text` and `image` reach a drawing routine; any other type
falls through with no effect. -/
def processObject (viewportHeight pageHeight : ℚ) (obj : AnnObj) :
    ObjOutcome :=
  if obj.type = "textbox" ∨ obj.type = "text" then
    match drawTextObject viewportHeight pageHeight obj with
    | .ok (some op) => .drawn op
    | .ok none => .skipped
    | .error _ => .errorLogged
  else if obj.type = "image" then
    match drawImageObject viewportHeight pageHeight obj with
    | (some op, _) => .drawn op
    | (none, true) => .errorLogged
    | (none, false) => .skipped
  else .skipped

/-- The per-page history state: the current canvas (as its serialized
snapshot), `AppState.undoStack[pageKey]` and `AppState.redoStack[pageKey]`.
JS `array.push` appends at the end, `array.pop` removes the last element,
`array.shift` removes the first. -/
structure HistState where
  canvas : String
  undoStack : List String
  redoStack : List String
deriving DecidableEq

/-- `saveUndoState` from brain.js, run as handler of a mutating canvas
event. The editing library fires the event after applying the mutation,
so the canvas the handler serializes is the post-mutation canvas `s`:
push it (cap 50, dropping the oldest on overflow) and clear the redo
stack. -/
def saveUndoState (h : HistState) (s : String) : HistState :=
  let u := h.undoStack ++ [s]
  let u := if 50 < u.length then u.drop 1 else u
  { canvas := s, undoStack := u, redoStack := [] }

/-- `undo` from brain.js: no-op on an empty undo stack; otherwise push
the current canvas onto the redo stack, pop the undo stack, and restore
the canvas to the popped snapshot. -/
def undo (h : HistState) : HistState :=
  match h.undoStack.getLast? with
  | none => h
  | some prev =>
    { canvas := prev
      undoStack := h.undoStack.dropLast
      redoStack := h.redoStack ++ [h.canvas] }

/-- `redo` from brain.js: no-op on an empty redo stack; otherwise push
the current canvas onto the undo stack (note: with no cap check), pop the
redo stack, and restore the canvas to the popped snapshot. -/
def redo (h : HistState) : HistState :=
  match h.redoStack.getLast? with
  | none => h
  | some nxt =>
    { canvas := nxt
      undoStack := h.undoStack ++ [h.canvas]
      redoStack := h.redoStack.dropLast }

/-- Events reaching the history engine of one page: a mutating
canvas event carrying the post-mutation canvas snapshot, an undo, a
redo. -/
inductive Ev where
  | mutate (s : String)
  | undo
  | redo

/-- One event step of the history engine. -/
def step (h : HistState) : Ev → HistState
  | .mutate s => saveUndoState h s
  | .undo => undo h
  | .redo => redo h

/-- Run the history engine on a page starting from a fresh canvas
`init` with empty stacks (the stacks are initialized lazily in the
source; absent and empty behave identically). -/
def run (init : String) (evs : List Ev) : HistState :=
  evs.foldl step { canvas := init, undoStack := [], redoStack := [] }

/-- The serialized objects array of one page entry of the store
(`pageAnnotations`): `objects` is `none` when the snapshot has no
`objects` field (possible for data restored from persistence). -/
structure PageAnn where
  objects : Option (List AnnObj)
deriving DecidableEq

/-- The in-memory store (`AppState.annotations`, a map from page number
to snapshot) together with the durable mirror under the fixed
localStorage key, modelled in parsed form. -/
structure AppStore where
  annStore : ℕ → Option PageAnn
  storage : Option (ℕ → Option PageAnn)

/-- `localStorage.setItem`, which throws (e.g. `QuotaExceededError`) when
the write fails; `writeOk` is the environment outcome. -/
def localStorageSetItem (writeOk : Bool) : Except String Unit :=
  if writeOk then .ok () else .error "QuotaExceededError"

/-- `saveCurrentPageAnnotations` from brain.js: overwrite the in-memory
entry for the current page first, then try to mirror the whole store to
localStorage; a throwing write is caught, logged with `console.warn` and
swallowed, leaving the previous mirror and the updated in-memory store. -/
def savePageAnn (currentPage : ℕ) (json : PageAnn) (writeOk : Bool)
    (s : AppStore) : AppStore :=
  let annStore := fun p => if p = currentPage then some json else s.annStore p
  match localStorageSetItem writeOk with
  | .ok _ => { annStore := annStore, storage := some annStore }
  | .error _ => { annStore := annStore, storage := s.storage }

/-- One page of the output document: its point height (from
`page.getSize()`) and the list of drawing primitives applied to it so
far, in application order. -/
structure OutPage where
  height : ℚ
  ops : List DrawOp
deriving DecidableEq

/-- Draw one stored snapshot onto its page: each object in snapshot
order, appending the successful draws and skipping the failed or
inapplicable ones. -/
def drawSnapshotOnPage (viewportHeight : ℚ) (pg : OutPage)
    (objs : List AnnObj) : OutPage :=
  { pg with ops := pg.ops ++
      objs.filterMap (fun o => (processObject viewportHeight pg.height o).op?) }

/-- The body of the per-entry loop of `savePDF`: skip the entry when
`pageIndex = pageNum - 1` is out of the page range, skip when the
snapshot has no `objects` field, otherwise draw the objects onto the
page via each object draw call. The viewport height of the page is
looked up per page number (`pdfDoc.getPage(pageNum).getViewport`). -/
def savePDFStep (viewH : Int → ℚ) (pgs : List OutPage)
    (e : Int × PageAnn) : List OutPage :=
  let pageIndex : Int := e.1 - 1
  if pageIndex < 0 ∨ (pgs.length : Int) ≤ pageIndex then pgs
  else
    match e.2.objects with
    | none => pgs
    | some objs =>
      match pgs[pageIndex.toNat]? with
      | none => pgs
      | some pg =>
        pgs.set pageIndex.toNat (drawSnapshotOnPage (viewH e.1) pg objs)

/-- The flattening loop of `savePDF`: fold the store entries
(`Object.entries(AppState.annotations)`, keys parsed with `parseInt`)
over the pages of the output document. -/
def savePDFModel (viewH : Int → ℚ) (pgs : List OutPage)
    (store : List (Int × PageAnn)) : List OutPage :=
  store.foldl (savePDFStep viewH) pgs

/-! Helper lemmas. -/

/-- The falsy-or of a present value with default 0 is the value itself. -/
@[simp] theorem numOr_some_zero (x : ℚ) : numOr (some x) 0 = x := by
  by_cases h : x = 0 <;> simp [numOr, h]

/-- The falsy-or of a present nonzero value is the value itself. -/
theorem numOr_some_of_ne (x d : ℚ) (h : x ≠ 0) : numOr (some x) d = x := by
  simp [numOr, h]

/-- The falsy-or of a present zero value is the default. -/
@[simp] theorem numOr_some_zero_val (d : ℚ) : numOr (some 0) d = d := by
  simp [numOr]

@[simp] theorem numOr_none (d : ℚ) : numOr none d = d := rfl

@[simp] theorem strOr_none (d : String) : strOr none d = d := rfl

/-- The default fill color parses to black. -/
theorem hexToRgb_black : hexToRgb "#000000" = ⟨some 0, some 0, some 0⟩ := by
  have h1 : parseIntBase16 (List.take 2
      (removeFirstHash ['#', '0', '0', '0', '0', '0', '0'])) = some 0 := by decide
  have h2 : parseIntBase16 (List.take 2 (List.drop 2
      (removeFirstHash ['#', '0', '0', '0', '0', '0', '0']))) = some 0 := by decide
  have h3 : parseIntBase16 (List.take 2 (List.drop 4
      (removeFirstHash ['#', '0', '0', '0', '0', '0', '0']))) = some 0 := by decide
  simp [hexToRgb, h1, h2, h3]

/-! Claim theorems. -/

/-- Claim C1: for every annotation object with positive left, top, height,
editing-surface height and output page height, the flattening transform
produces `outputX = left * scale` and
`outputY = outputPageHeight - (top + height) * scale` with
`scale = outputPageHeight / editingSurfaceHeight`, and scales the drawn
font size (text) and drawn width/height (image) by the same factor,
exactly. For an image object `height` is the rendered bounding-box
height, which the code computes as the height attribute (falling back to
the intrinsic embedded height) times the Y scale factor. -/
theorem C1_coordinate_transform (viewH pageH l t h : ℚ)
    (hv : 0 < viewH) (hp : 0 < pageH) (hl : 0 < l) (ht : 0 < t)
    (hh : 0 < h) :
    (∀ (obj : AnnObj) (txt : String) (r g b : ℚ),
      obj.text = some txt → txt ≠ "" →
      obj.left = some l → obj.top = some t → obj.height = some h →
      hexToRgb (strOr obj.fill "#000000") = ⟨some r, some g, some b⟩ →
      drawTextObject viewH pageH obj =
        .ok (some (.text (l * (pageH / viewH))
          (pageH - (t + h) * (pageH / viewH))
          (numOr obj.fontSize 18 * (pageH / viewH)) txt ⟨r, g, b⟩)))
    ∧ (∀ (obj : AnnObj) (src : String),
      obj.src = some src → src ≠ "" → obj.imgCorrupt = false →
      obj.left = some l → obj.top = some t →
      numOr obj.height obj.imgNaturalHeight * numOr obj.scaleY 1 = h →
      drawImageObject viewH pageH obj =
        (some (.image (l * (pageH / viewH))
          (pageH - (t + h) * (pageH / viewH))
          (numOr obj.width obj.imgNaturalWidth * numOr obj.scaleX 1 *
            (pageH / viewH))
          (h * (pageH / viewH))), false)) := by
  constructor
  · intro obj txt r g b htext htne hleft htop hheight hcolor
    simp only [drawTextObject, htext, htne, if_false, hleft, htop, hheight,
      hcolor, numOr_some_of_ne l 0 hl.ne', numOr_some_of_ne t 0 ht.ne',
      numOr_some_of_ne h _ hh.ne']
  · intro obj src hsrc hsne hcorr hleft htop heff
    simp only [drawImageObject, hsrc, hsne, if_false, hcorr, hleft, htop,
      heff, numOr_some_of_ne l 0 hl.ne', numOr_some_of_ne t 0 ht.ne',
      Bool.false_eq_true, if_false]

/-- Claim C1 witness at the worked example of the source documentation:
US Letter page of height 792 points rendered at height 1188 pixels
(scale 2/3), a text object and an image object at left 100, top 50,
height 30. -/
theorem C1_coordinate_transform_witness :
    drawTextObject 1188 792
        { type := "textbox", text := some "Hello", left := some 100,
          top := some 50, height := some 30 } =
      .ok (some (.text (100 * (792 / 1188)) (792 - (50 + 30) * (792 / 1188))
        (numOr none 18 * (792 / 1188)) "Hello" ⟨0, 0, 0⟩))
    ∧ drawImageObject 1188 792
        { type := "image", src := some "data:image/png;base64,AAAA",
          left := some 100, top := some 50, width := some 40,
          height := some 30, imgNaturalWidth := 400,
          imgNaturalHeight := 300 } =
      (some (.image (100 * (792 / 1188)) (792 - (50 + 30) * (792 / 1188))
        (numOr (some 40) 400 * numOr none 1 * (792 / 1188))
        (30 * (792 / 1188))), false) := by
  refine ⟨(C1_coordinate_transform 1188 792 100 50 30 (by norm_num)
      (by norm_num) (by norm_num) (by norm_num) (by norm_num)).1
      _ "Hello" 0 0 0 rfl (by decide) rfl rfl rfl hexToRgb_black,
    (C1_coordinate_transform 1188 792 100 50 30 (by norm_num) (by norm_num)
      (by norm_num) (by norm_num) (by norm_num)).2
      _ "data:image/png;base64,AAAA" rfl (by decide) rfl rfl rfl ?_⟩
  norm_num [numOr]

/-- Claim C8 counterexample: a text object with height attribute zero at
top 50 on a 792-point page rendered at 1188 pixels. The claim predicts
`outputY = 792 - 50 * (792/1188) = 2276/3`; the code treats the zero
height as falsy, substitutes the default font size 18 as the height, and
draws at `outputY = 792 - (50 + 18) * (792/1188) = 2240/3`. -/
theorem C8_counterexample :
    drawTextObject 1188 792
        { type := "textbox", text := some "hi", left := some 10,
          top := some 50, height := some 0 } =
      .ok (some (.text (20 / 3) (2240 / 3) 12 "hi" ⟨0, 0, 0⟩))
    ∧ (2240 : ℚ) / 3 ≠ 792 - 50 * (792 / 1188) := by
  constructor
  · simp +decide [drawTextObject, numOr, strOr, hexToRgb_black]
    norm_num
  · norm_num

/-- Claim C8 amended: an object whose height attribute is zero is not
mapped with `top` directly; the attribute is falsy, so the fallback
height is used instead — the effective font size (default 18) for a text
object, the intrinsic embedded image height times the Y scale factor for
an image object — giving
`outputY = outputPageHeight - (top + fallbackHeight) * scale`. -/
theorem C8_zero_height_uses_fallback (viewH pageH t : ℚ) :
    (∀ (obj : AnnObj) (txt : String) (r g b : ℚ),
      obj.text = some txt → txt ≠ "" →
      obj.top = some t → obj.height = some 0 →
      hexToRgb (strOr obj.fill "#000000") = ⟨some r, some g, some b⟩ →
      drawTextObject viewH pageH obj =
        .ok (some (.text (numOr obj.left 0 * (pageH / viewH))
          (pageH - (t + numOr obj.fontSize 18) * (pageH / viewH))
          (numOr obj.fontSize 18 * (pageH / viewH)) txt ⟨r, g, b⟩)))
    ∧ (∀ (obj : AnnObj) (src : String),
      obj.src = some src → src ≠ "" → obj.imgCorrupt = false →
      obj.top = some t → obj.height = some 0 →
      drawImageObject viewH pageH obj =
        (some (.image (numOr obj.left 0 * (pageH / viewH))
          (pageH - (t + obj.imgNaturalHeight * numOr obj.scaleY 1) *
            (pageH / viewH))
          (numOr obj.width obj.imgNaturalWidth * numOr obj.scaleX 1 *
            (pageH / viewH))
          (obj.imgNaturalHeight * numOr obj.scaleY 1 *
            (pageH / viewH))), false)) := by
  constructor
  · intro obj txt r g b htext htne htop hheight hcolor
    by_cases h0 : t = 0 <;>
      simp only [drawTextObject, htext, htne, if_false, htop, hheight,
        hcolor, numOr_some_zero_val, numOr, h0, if_true, if_false, ite_true,
        ite_false, reduceIte]
  · intro obj src hsrc hsne hcorr htop hheight
    by_cases h0 : t = 0 <;>
      simp only [drawImageObject, hsrc, hsne, if_false, hcorr, htop,
        hheight, numOr_some_zero_val, numOr, h0, Bool.false_eq_true,
        ite_true, ite_false, reduceIte]

/-- Claim C8 amended witness: the counterexample object drawn through the
amended statement, and the analogous zero-height image object. -/
theorem C8_zero_height_uses_fallback_witness :
    drawTextObject 1188 792
        { type := "textbox", text := some "hi", left := some 10,
          top := some 50, height := some 0 } =
      .ok (some (.text (numOr (some 10) 0 * (792 / 1188))
        (792 - (50 + numOr none 18) * (792 / 1188))
        (numOr none 18 * (792 / 1188)) "hi" ⟨0, 0, 0⟩))
    ∧ drawImageObject 1188 792
        { type := "image", src := some "data:image/jpeg;base64,AAAA",
          left := some 10, top := some 50, height := some 0,
          imgNaturalWidth := 400, imgNaturalHeight := 300 } =
      (some (.image (numOr (some 10) 0 * (792 / 1188))
        (792 - (50 + 300 * numOr none 1) * (792 / 1188))
        (numOr none 400 * numOr none 1 * (792 / 1188))
        (300 * numOr none 1 * (792 / 1188))), false) :=
  ⟨(C8_zero_height_uses_fallback 1188 792 50).1 _ "hi" 0 0 0 rfl
      (by decide) rfl rfl hexToRgb_black,
    (C8_zero_height_uses_fallback 1188 792 50).2
      _ "data:image/jpeg;base64,AAAA" rfl (by decide) rfl rfl rfl⟩

/-- Claim C9: when the optional attributes are absent the transform uses
the fixed fallbacks — font size 18, fill black, scale factors 1 — and
completes without failing: the text draw succeeds with size `18 * scale`
and black color, and the image draw succeeds with scale factors 1. -/
theorem C9_missing_attribute_defaults (viewH pageH : ℚ) :
    (∀ (obj : AnnObj) (txt : String),
      obj.text = some txt → txt ≠ "" →
      obj.fontSize = none → obj.fill = none →
      drawTextObject viewH pageH obj =
        .ok (some (.text (numOr obj.left 0 * (pageH / viewH))
          (pageH - (numOr obj.top 0 + numOr obj.height 18) *
            (pageH / viewH))
          (18 * (pageH / viewH)) txt ⟨0, 0, 0⟩)))
    ∧ (∀ (obj : AnnObj) (src : String),
      obj.src = some src → src ≠ "" → obj.imgCorrupt = false →
      obj.scaleX = none → obj.scaleY = none →
      drawImageObject viewH pageH obj =
        (some (.image (numOr obj.left 0 * (pageH / viewH))
          (pageH - (numOr obj.top 0 +
            numOr obj.height obj.imgNaturalHeight * 1) * (pageH / viewH))
          (numOr obj.width obj.imgNaturalWidth * 1 * (pageH / viewH))
          (numOr obj.height obj.imgNaturalHeight * 1 *
            (pageH / viewH))), false)) := by
  constructor
  · intro obj txt htext htne hfs hfill
    simp only [drawTextObject, htext, htne, if_false, hfs, hfill,
      strOr_none, hexToRgb_black, numOr_none]
  · intro obj src hsrc hsne hcorr hsx hsy
    simp only [drawImageObject, hsrc, hsne, if_false, hcorr, hsx, hsy,
      numOr_none, Bool.false_eq_true, ite_false, reduceIte]

/-- Claim C9 witness: a text object carrying only its text and position
and an image object carrying only source, dimensions and position. -/
theorem C9_missing_attribute_defaults_witness :
    drawTextObject 1188 792
        { type := "textbox", text := some "note", left := some 100,
          top := some 50, height := some 30 } =
      .ok (some (.text (numOr (some 100) 0 * (792 / 1188))
        (792 - (numOr (some 50) 0 + numOr (some 30) 18) * (792 / 1188))
        (18 * (792 / 1188)) "note" ⟨0, 0, 0⟩))
    ∧ drawImageObject 1188 792
        { type := "image", src := some "data:image/png;base64,AAAA",
          left := some 100, top := some 50, width := some 40,
          height := some 30, imgNaturalWidth := 400,
          imgNaturalHeight := 300 } =
      (some (.image (numOr (some 100) 0 * (792 / 1188))
        (792 - (numOr (some 50) 0 + numOr (some 30) 300 * 1) *
          (792 / 1188))
        (numOr (some 40) 400 * 1 * (792 / 1188))
        (numOr (some 30) 300 * 1 * (792 / 1188))), false) :=
  ⟨(C9_missing_attribute_defaults 1188 792).1 _ "note" rfl (by decide)
      rfl rfl,
    (C9_missing_attribute_defaults 1188 792).2
      _ "data:image/png;base64,AAAA" rfl (by decide) rfl rfl rfl⟩

/-- Claim C10: during flattening only objects of type `textbox`, `text`
or `image` are ever drawn; an object of any other type is silently
ignored (not drawn and not logged as an error), and a text object with
absent or empty text, or an image object with an absent or empty source,
is likewise skipped without drawing anything. -/
theorem C10_unknown_types_skipped (viewH pageH : ℚ) (obj : AnnObj) :
    (obj.type ≠ "textbox" → obj.type ≠ "text" → obj.type ≠ "image" →
      processObject viewH pageH obj = .skipped)
    ∧ ((obj.type = "textbox" ∨ obj.type = "text") →
      (obj.text = none ∨ obj.text = some "") →
      processObject viewH pageH obj = .skipped)
    ∧ (obj.type = "image" → (obj.src = none ∨ obj.src = some "") →
      processObject viewH pageH obj = .skipped) := by
  refine ⟨fun h1 h2 h3 => ?_, fun hty htext => ?_, fun hty hsrc => ?_⟩
  · simp [processObject, h1, h2, h3]
  · have hdraw : drawTextObject viewH pageH obj = .ok none := by
      rcases htext with h | h <;> simp [drawTextObject, h]
    simp [processObject, hty, hdraw]
  · have hdraw : drawImageObject viewH pageH obj = (none, false) := by
      rcases hsrc with h | h <;> simp [drawImageObject, h]
    by_cases htb : obj.type = "textbox"
    · rw [hty] at htb; exact absurd htb (by decide)
    · by_cases htx : obj.type = "text"
      · rw [hty] at htx; exact absurd htx (by decide)
      · simp [processObject, hty, htb, htx, hdraw]

/-- Claim C10 witness: an object of unknown type `rect`, a textbox with
empty text, and an image with no source, all skipped silently. -/
theorem C10_unknown_types_skipped_witness :
    processObject 1188 792 { type := "rect" } = .skipped
    ∧ processObject 1188 792 { type := "textbox", text := some "" } =
      .skipped
    ∧ processObject 1188 792 { type := "image" } = .skipped :=
  ⟨(C10_unknown_types_skipped 1188 792 { type := "rect" }).1
      (by decide) (by decide) (by decide),
    (C10_unknown_types_skipped 1188 792
      { type := "textbox", text := some "" }).2.1 (.inl rfl) (.inr rfl),
    (C10_unknown_types_skipped 1188 792 { type := "image" }).2.2 rfl
      (.inl rfl)⟩

/-- Claim C2: on any history state of a page with a non-empty undo stack
— in particular the state after any sequence of prior mutations, undos
and redos, of at most 50 mutations or otherwise — performing `undo`
followed immediately by `redo` restores the canvas to the exact snapshot
it held before the undo; in fact the whole history state round-trips. -/
theorem C2_undo_redo_round_trip (h : HistState)
    (hne : h.undoStack ≠ []) : redo (undo h) = h := by
  obtain ⟨c, u, r⟩ := h
  rcases List.eq_nil_or_concat u with rfl | ⟨u', a, rfl⟩
  · exact absurd rfl hne
  · simp [undo, redo, List.getLast?_concat, List.dropLast_concat]

/-- Claim C2 witness: a page with one prior mutation round-trips. -/
theorem C2_undo_redo_round_trip_witness :
    redo (undo (run "blank" [.mutate "withText"])) =
      run "blank" [.mutate "withText"] :=
  C2_undo_redo_round_trip (run "blank" [.mutate "withText"]) (by decide)

/-- The lengths of the two stacks together never exceed the cap: this is
the inductive invariant behind the stack bound, preserved also by `redo`
even though `redo` pushes onto the undo stack without a cap check. -/
theorem step_stack_sum_le (h : HistState) (e : Ev)
    (hle : h.undoStack.length + h.redoStack.length ≤ 50) :
    (step h e).undoStack.length + (step h e).redoStack.length ≤ 50 := by
  cases e with
  | mutate s =>
    simp only [step, saveUndoState]
    split <;> simp_all <;> omega
  | undo =>
    simp only [step, undo]
    cases hu : h.undoStack.getLast? with
    | none => simpa using hle
    | some prev =>
      have : h.undoStack ≠ [] := by
        intro hemp
        rw [hemp] at hu
        exact absurd hu (by simp)
      have hlen : 1 ≤ h.undoStack.length := by
        cases hnil : h.undoStack with
        | nil => exact absurd hnil this
        | cons a l => simp
      simp only [List.length_dropLast, List.length_append,
        List.length_singleton]
      omega
  | redo =>
    simp only [step, redo]
    cases hr : h.redoStack.getLast? with
    | none => simpa using hle
    | some nxt =>
      have : h.redoStack ≠ [] := by
        intro hemp
        rw [hemp] at hr
        exact absurd hr (by simp)
      have hlen : 1 ≤ h.redoStack.length := by
        cases hnil : h.redoStack with
        | nil => exact absurd hnil this
        | cons a l => simp
      simp only [List.length_dropLast, List.length_append,
        List.length_singleton]
      omega

/-- The stack-sum invariant holds of every reachable history state. -/
theorem run_stack_sum_le (init : String) (evs : List Ev) :
    (run init evs).undoStack.length + (run init evs).redoStack.length
      ≤ 50 := by
  suffices H : ∀ (h : HistState),
      h.undoStack.length + h.redoStack.length ≤ 50 →
      (evs.foldl step h).undoStack.length +
        (evs.foldl step h).redoStack.length ≤ 50 by
    exact H _ (by simp)
  induction evs with
  | nil => intro h hle; simpa using hle
  | cons e rest ih =>
    intro h hle
    exact ih (step h e) (step_stack_sum_le h e hle)

/-- Claim C3: after any sequence of mutating events, undos and redos on a
page, the undo stack never holds more than 50 entries — even though
`redo` pushes onto it without a cap check — and when a push arrives with
the stack at the cap, the oldest entry is evicted first. -/
theorem C3_undo_stack_bounded :
    (∀ (init : String) (evs : List Ev),
      (run init evs).undoStack.length ≤ 50)
    ∧ (∀ (h : HistState) (s : String), h.undoStack.length = 50 →
      (saveUndoState h s).undoStack = h.undoStack.drop 1 ++ [s]) := by
  constructor
  · intro init evs
    have := run_stack_sum_le init evs
    omega
  · intro h s hlen
    have hne : h.undoStack ≠ [] := by
      intro hemp
      rw [hemp] at hlen
      simp at hlen
    simp only [saveUndoState]
    rw [if_pos (by simp [hlen])]
    exact List.drop_append_of_le_length (by omega)

/-- Claim C3 witness: a trace of 60 mutations stays within the cap, and a
push onto a full stack evicts the oldest entry. -/
theorem C3_undo_stack_bounded_witness :
    (run "blank" (List.replicate 60 (.mutate "x"))).undoStack.length ≤ 50
    ∧ (saveUndoState ⟨"c", List.replicate 50 "a", []⟩ "b").undoStack =
      (List.replicate 50 "a").drop 1 ++ ["b"] :=
  ⟨C3_undo_stack_bounded.1 "blank" (List.replicate 60 (.mutate "x")),
    C3_undo_stack_bounded.2 ⟨"c", List.replicate 50 "a", []⟩ "b"
      (by simp)⟩

/-- Claim C4: any fresh mutating canvas event — add, modify or remove all
route to `saveUndoState` — leaves the redo stack of the page empty, on
every history state and in particular after any prior trace ending in
undos; the redo stack is never retained across a fresh mutation. -/
theorem C4_mutation_clears_redo :
    (∀ (h : HistState) (s : String),
      (saveUndoState h s).redoStack = [])
    ∧ (∀ (init : String) (evs : List Ev) (s : String),
      (run init (evs ++ [.mutate s])).redoStack = []) := by
  refine ⟨fun h s => rfl, fun init evs s => ?_⟩
  simp only [run, List.foldl_append, List.foldl_cons, List.foldl_nil]
  rfl

/-- Claim C6: when the durable-storage write fails during
`saveCurrentPageAnnotations`, the in-memory store entry for the page
still equals the new snapshot, every other entry is untouched, the
in-memory outcome is identical to the success case (nothing is rolled
back), and the previous durable mirror is left as it was; the function is
total, so no error escapes to the caller. -/
theorem C6_persistence_failure_keeps_store (s : AppStore) (page : ℕ)
    (json : PageAnn) (writeOk : Bool) :
    (savePageAnn page json writeOk s).annStore page = some json
    ∧ (∀ q, q ≠ page →
      (savePageAnn page json writeOk s).annStore q = s.annStore q)
    ∧ (savePageAnn page json false s).annStore =
      (savePageAnn page json true s).annStore
    ∧ (savePageAnn page json false s).storage = s.storage := by
  refine ⟨?_, fun q hq => ?_, ?_, rfl⟩
  · cases writeOk <;> simp [savePageAnn, localStorageSetItem]
  · cases writeOk <;> simp [savePageAnn, localStorageSetItem, hq]
  · rfl

/-- Claim C6 witness: a failing write on an empty store still records the
snapshot for page 1 in memory and leaves page 2 absent. -/
theorem C6_persistence_failure_keeps_store_witness :
    (savePageAnn 1 ⟨some []⟩ false ⟨fun _ => none, none⟩).annStore 1 =
      some ⟨some []⟩
    ∧ (savePageAnn 1 ⟨some []⟩ false
        ⟨fun _ => none, none⟩).annStore 2 = none :=
  ⟨(C6_persistence_failure_keeps_store ⟨fun _ => none, none⟩ 1 ⟨some []⟩
      false).1,
    (C6_persistence_failure_keeps_store ⟨fun _ => none, none⟩ 1 ⟨some []⟩
      false).2.1 2 (by decide)⟩

/-! Lemmas for the flattening pipeline. -/

/-- One flattening step never changes the number of pages. -/
theorem length_savePDFStep (viewH : Int → ℚ) (pgs : List OutPage)
    (e : Int × PageAnn) : (savePDFStep viewH pgs e).length = pgs.length := by
  simp only [savePDFStep]
  split
  · rfl
  · split
    · rfl
    · split
      · rfl
      · exact List.length_set ..

/-- The whole flattening fold never changes the number of pages. -/
theorem length_savePDFModel (viewH : Int → ℚ) (pgs : List OutPage)
    (store : List (Int × PageAnn)) :
    (savePDFModel viewH pgs store).length = pgs.length := by
  induction store generalizing pgs with
  | nil => rfl
  | cons e rest ih =>
    simp only [savePDFModel, List.foldl_cons] at *
    rw [ih, length_savePDFStep]

/-- A store entry whose page number is out of range is skipped. -/
theorem savePDFStep_out_of_range (viewH : Int → ℚ) (pgs : List OutPage)
    (e : Int × PageAnn) (h : e.1 < 1 ∨ (pgs.length : Int) < e.1) :
    savePDFStep viewH pgs e = pgs := by
  simp only [savePDFStep]
  rw [if_pos (by omega)]

/-- A step for a different page number leaves a page untouched. -/
theorem savePDFStep_getElem?_ne (viewH : Int → ℚ) (pgs : List OutPage)
    (e : Int × PageAnn) (i : ℕ) (hne : e.1 ≠ (i : Int) + 1) :
    (savePDFStep viewH pgs e)[i]? = pgs[i]? := by
  simp only [savePDFStep]
  split
  · rfl
  · split
    · rfl
    · split
      · rfl
      · next hrange _ _ =>
        apply List.getElem?_set_ne
        intro hEq
        apply hne
        omega

/-- Folding entries none of which target index `i` leaves page `i`
untouched. -/
theorem savePDFModel_getElem?_ne (viewH : Int → ℚ) (pgs : List OutPage)
    (store : List (Int × PageAnn)) (i : ℕ)
    (h : ∀ e ∈ store, e.1 ≠ (i : Int) + 1) :
    (savePDFModel viewH pgs store)[i]? = pgs[i]? := by
  induction store generalizing pgs with
  | nil => rfl
  | cons e rest ih =>
    simp only [savePDFModel, List.foldl_cons] at *
    rw [ih _ fun e' he' => h e' (List.mem_cons_of_mem _ he'),
      savePDFStep_getElem?_ne _ _ _ _ (h e (List.mem_cons_self _ _))]

/-- A step for page number `i + 1`, in range and with a present objects
array, draws exactly that snapshot onto page `i`. -/
theorem savePDFStep_getElem?_hit (viewH : Int → ℚ) (pgs : List OutPage)
    (e : Int × PageAnn) (i : ℕ) (objs : List AnnObj) (pg : OutPage)
    (hkey : e.1 = (i : Int) + 1) (hlt : i < pgs.length)
    (hobjs : e.2.objects = some objs) (hpg : pgs[i]? = some pg) :
    (savePDFStep viewH pgs e)[i]? =
      some (drawSnapshotOnPage (viewH e.1) pg objs) := by
  have hidx : (e.1 - 1).toNat = i := by omega
  simp only [savePDFStep]
  rw [if_neg (by omega), hobjs]
  simp only [hidx, hpg]
  exact List.getElem?_set_eq_of_lt _ (by simpa [hidx] using hlt)

/-- Claim C5: flattening a store with distinct page-number keys draws,
for every in-range entry, exactly the objects of its stored snapshot onto
its own page, appended in snapshot order (z-order preserved) after the
existing page content; an object whose draw fails or is inapplicable
contributes nothing (`op?` is `none` for the caught failure), while all
other objects of that page and of every other page are still drawn. -/
theorem C5_flatten_draws_in_snapshot_order (viewH : Int → ℚ)
    (pgs : List OutPage) (store : List (Int × PageAnn))
    (hnd : (store.map Prod.fst).Nodup)
    (pn : Int) (objs : List AnnObj) (pg : OutPage)
    (hmem : (pn, PageAnn.mk (some objs)) ∈ store)
    (h1 : 1 ≤ pn) (h2 : pn ≤ (pgs.length : Int))
    (hpg : pgs[(pn - 1).toNat]? = some pg) :
    (savePDFModel viewH pgs store)[(pn - 1).toNat]? =
      some { height := pg.height,
             ops := pg.ops ++ objs.filterMap
               (fun o => (processObject (viewH pn) pg.height o).op?) } := by
  obtain ⟨s₁, s₂, rfl⟩ := List.append_of_mem hmem
  have hi : (((pn - 1).toNat : ℕ) : Int) = pn - 1 := by omega
  rw [List.map_append, List.map_cons] at hnd
  obtain ⟨hnd₁, hnd₂, hdisj⟩ := List.nodup_append.mp hnd
  have hpn₂ : pn ∉ s₂.map Prod.fst := (List.nodup_cons.mp hnd₂).1
  have hpn₁ : pn ∉ s₁.map Prod.fst := fun hin =>
    hdisj hin (List.mem_cons_self _ _)
  have hkey₁ : ∀ e ∈ s₁, e.1 ≠ (((pn - 1).toNat : ℕ) : Int) + 1 := by
    intro e he hEq
    exact hpn₁ (by
      have : e.1 = pn := by omega
      exact this ▸ List.mem_map_of_mem Prod.fst he)
  have hkey₂ : ∀ e ∈ s₂, e.1 ≠ (((pn - 1).toNat : ℕ) : Int) + 1 := by
    intro e he hEq
    exact hpn₂ (by
      have : e.1 = pn := by omega
      exact this ▸ List.mem_map_of_mem Prod.fst he)
  have hfold : savePDFModel viewH pgs (s₁ ++ (pn, PageAnn.mk (some objs)) :: s₂) =
      savePDFModel viewH
        (savePDFStep viewH (savePDFModel viewH pgs s₁)
          (pn, PageAnn.mk (some objs))) s₂ := by
    simp only [savePDFModel, List.foldl_append, List.foldl_cons]
  rw [hfold, savePDFModel_getElem?_ne _ _ _ _ hkey₂]
  have hP1 : (savePDFModel viewH pgs s₁)[(pn - 1).toNat]? = some pg := by
    rw [savePDFModel_getElem?_ne _ _ _ _ hkey₁]
    exact hpg
  have hlt : (pn - 1).toNat < (savePDFModel viewH pgs s₁).length := by
    rw [length_savePDFModel]
    omega
  exact savePDFStep_getElem?_hit _ _ _ _ objs pg (by omega) hlt rfl hP1

/-- The snapshot of page 1 in the Claim C5 witness: a drawable text
object followed by a corrupt one (a fill that the color parser rejects,
making the text draw throw, caught by the per-object handler). -/
def objGood : AnnObj :=
  { type := "textbox", text := some "A", left := some 3, top := some 6,
    height := some 9 }

/-- A corrupt annotation object: its fill string has no hex digits, so
`hexToRgb` produces `NaN` channels and the draw call throws. -/
def objBad : AnnObj :=
  { type := "textbox", text := some "B", fill := some "oops" }

/-- Color parse of the corrupt fill: every channel is `NaN`. -/
theorem hexToRgb_oops : hexToRgb "oops" = ⟨none, none, none⟩ := by
  have h1 : parseIntBase16 (List.take 2
      (removeFirstHash ['o', 'o', 'p', 's'])) = none := by decide
  have h2 : parseIntBase16 (List.take 2 (List.drop 2
      (removeFirstHash ['o', 'o', 'p', 's']))) = none := by decide
  have h3 : parseIntBase16 (List.take 2 (List.drop 4
      (removeFirstHash ['o', 'o', 'p', 's']))) = none := by decide
  simp [hexToRgb, h1, h2, h3]

/-- Claim C5 witness: flattening a two-page document whose page 1 holds a
good and a corrupt object; the fold draws page 1 as its prior content
plus the snapshot draws in order, and evaluating those draws shows the
corrupt object skipped while the good one is drawn. -/
theorem C5_flatten_draws_in_snapshot_order_witness :
    (savePDFModel (fun _ => 1188) [⟨792, []⟩, ⟨600, []⟩]
        [(1, ⟨some [objGood, objBad]⟩), (2, ⟨some []⟩)])[(1 - 1 : Int).toNat]? =
      some { height := (792 : ℚ),
             ops := [] ++ [objGood, objBad].filterMap
               (fun o => (processObject 1188 792 o).op?) }
    ∧ [objGood, objBad].filterMap
        (fun o => (processObject 1188 792 o).op?) =
      [.text 2 782 12 "A" ⟨0, 0, 0⟩] := by
  constructor
  · exact C5_flatten_draws_in_snapshot_order (fun _ => 1188)
      [⟨792, []⟩, ⟨600, []⟩]
      [(1, ⟨some [objGood, objBad]⟩), (2, ⟨some []⟩)] (by decide)
      1 [objGood, objBad] ⟨792, []⟩ (List.mem_cons_self _ _)
      (by decide) (by decide) rfl
  · simp +decide [objGood, objBad, processObject, drawTextObject, numOr,
      strOr, hexToRgb_black, hexToRgb_oops, ObjOutcome.op?]
    norm_num

/-- Claim C7: every store entry whose page-number key lies outside
`[1, totalPages]` is skipped during flattening: the result is the same as
flattening only the in-range entries, and the number of pages of the
output document never changes (no page is created); the fold is total, so
no error is raised. -/
theorem C7_out_of_range_entries_skipped (viewH : Int → ℚ)
    (pgs : List OutPage) (store : List (Int × PageAnn)) :
    savePDFModel viewH pgs store =
      savePDFModel viewH pgs (store.filter
        (fun e => decide (1 ≤ e.1 ∧ e.1 ≤ (pgs.length : Int))))
    ∧ (savePDFModel viewH pgs store).length = pgs.length := by
  refine ⟨?_, length_savePDFModel viewH pgs store⟩
  induction store generalizing pgs with
  | nil => rfl
  | cons e rest ih =>
    by_cases hin : 1 ≤ e.1 ∧ e.1 ≤ (pgs.length : Int)
    · rw [List.filter_cons_of_pos (by simpa using hin)]
      simp only [savePDFModel, List.foldl_cons]
      have := ih (savePDFStep viewH pgs e)
      rw [length_savePDFStep] at this
      exact this
    · rw [List.filter_cons_of_neg (by simpa using hin)]
      simp only [savePDFModel, List.foldl_cons]
      rw [savePDFStep_out_of_range _ _ _ (by omega)]
      exact ih pgs

end PdfEditor
